import Mathlib

/-!
Shallow embedding of the cgminer-rs monitoring script
(`examples/scripts/monitor.py`, class `CGMinerMonitor`).

Modelling conventions:
* JSON dictionary fields that the script reads with `dict.get(key)` are
  `Option` fields; `dict.get(key, 0)` becomes `Option.getD _ 0`.
* Python floats (temperatures, hashrates) are modelled as `ℚ`; Python ints
  (share counters, hardware errors) as `ℤ`.
* `datetime` timestamps are modelled as `ℤ` (seconds); `timedelta(hours=24)`
  is `86400`; ISO-string comparison after `fromisoformat` is numeric
  comparison.
* Each call to `datetime.now()` in the source becomes an explicit `ℤ`
  parameter of the embedded function, one parameter per textual call site.
* Python truthiness on an optional float (`if temp:`) is `optTruthy`:
  false for `None` and for `0`, true otherwise.  Truthiness of a list is
  non-emptiness; of an optional list, presence and non-emptiness.
* Alert messages are Python f-strings; they are embedded as the inductive
  `Msg`, one constructor per literal format string, carrying exactly the
  interpolated values.  Rendering to text is injective on this data, so
  equality of rendered messages is equality of `Msg` values.
-/

namespace Monitor

/-- The `data` object of `GET /api/v1/status` (`status['data']`), every field
read via `.get`, hence optional. -/
structure StatusData where
  miningState : Option String
  totalHashrate : Option ℚ
  acceptedShares : Option ℤ
  rejectedShares : Option ℤ
  hardwareErrors : Option ℤ
  activeDevices : Option ℤ
  uptime : Option ℤ
  deriving DecidableEq, Repr

/-- The payload of `GET /api/v1/status`: an application-level `success` flag
plus the `data` object (`status.get('data', {})` is `data` with every field
absent). -/
structure Status where
  success : Bool
  data : StatusData
  deriving DecidableEq, Repr

/-- One entry of the device list from `GET /api/v1/devices`. -/
structure Device where
  deviceId : Option String
  status : Option String
  temperature : Option ℚ
  hashrate : Option ℚ
  deriving DecidableEq, Repr

/-- One entry of the pool list from `GET /api/v1/pools`. -/
structure Pool where
  status : Option String
  deriving DecidableEq, Repr

/-- Python truthiness of an optional numeric value: `if temp:` is false for
`None` and for `0`/`0.0`, true for any other number. -/
def optTruthy : Option ℚ → Bool
  | none => false
  | some v => v != 0

/-- Truthiness of the fetched `status` object: `status and status.get('success')`. -/
def statusTruthy : Option Status → Bool
  | none => false
  | some s => s.success

/-- Alert severity, the `type` key of an alert dict in `check_alerts`. -/
inductive Severity where
  | critical
  | warning
  deriving DecidableEq, Repr

/-- Alert message contents, one constructor per f-string in `check_alerts`,
carrying the interpolated values. -/
inductive Msg where
  /-- The constant message of line 137, API not responding. -/
  | apiNotResponding
  /-- The f-string of line 148, Mining not active, carrying the state. -/
  | miningNotActive (state : Option String)
  /-- The f-string of line 157, Low total hashrate, carrying the value. -/
  | lowTotalHashrate (v : ℚ)
  /-- The f-string of line 166, High hardware errors, carrying the count. -/
  | highHardwareErrors (n : ℤ)
  /-- The f-string of line 180, device high temperature, carrying the
  device id and the temperature. -/
  | deviceHighTemp (id : Option String) (v : ℚ)
  /-- The f-string of line 189, device low hashrate, carrying the device
  id and the hashrate. -/
  | deviceLowHashrate (id : Option String) (v : ℚ)
  /-- The f-string of line 197, device not mining, carrying the device id
  and its status. -/
  | deviceNotMining (id : Option String) (st : Option String)
  /-- The constant message of line 207, No pools connected. -/
  | noPoolsConnected
  deriving DecidableEq, Repr

/-- An alert dict as built in `check_alerts`: `type`, `message`,
`timestamp` (the `datetime.now().isoformat()` at creation). -/
structure Alert where
  type : Severity
  message : Msg
  timestamp : ℤ
  deriving DecidableEq, Repr

/-- The per-device condition counted in `check_health` (line 112-114):
`status == 'Mining' and temperature (default 0) < 85.0 and
hashrate (default 0) > 15.0`. -/
def healthyDevice (d : Device) : Bool :=
  d.status == some "Mining"
    && decide (d.temperature.getD 0 < 85)
    && decide (d.hashrate.getD 0 > 15)

/-- The device block of `check_health` (lines 105-119): if the device list
is truthy, count healthy devices and compare the healthy fraction
`healthy_devices / total_devices` with the literal `0.8`; the single boolean
it produces is assigned to both `devices_healthy` and `temperature_ok`.
Python's true division of the two counts is exact rational division here,
written `Rat.divInt` (the kernel-computable form of `/` on `ℚ`); `0.8` is
`Rat.divInt 8 10`. -/
def devicesCheck : Option (List Device) → Bool
  | none => false
  | some devices =>
    if devices.isEmpty then false
    else
      let healthyDevices := devices.countP healthyDevice
      let totalDevices := devices.length
      decide (0 < totalDevices ∧
        Rat.divInt (healthyDevices : ℤ) (totalDevices : ℤ) ≥ Rat.divInt 8 10)

/-- The pool block of `check_health` (lines 121-126): if the pool list is
truthy, `pools_connected` is set when the count of pools with
`status == 'Connected'` is positive. -/
def poolsCheck : Option (List Pool) → Bool
  | none => false
  | some pools =>
    if pools.isEmpty then false
    else decide (0 < (pools.countP (fun p => p.status == some "Connected")))

/-- The health report returned by `check_health`: a fixed set of named
boolean checks, all initialised to false. -/
structure HealthReport where
  apiResponsive : Bool
  miningActive : Bool
  devicesHealthy : Bool
  poolsConnected : Bool
  temperatureOk : Bool
  hashrateOk : Bool
  deriving DecidableEq, Repr

/-- Embeds `CGMinerMonitor.check_health` (lines 80-128), with the three fetches
made explicit inputs.  The status block runs only under
`status and status.get('success')`; `devices_healthy` and `temperature_ok`
are both assigned from the one `devicesCheck` condition (lines 117-119). -/
def checkHealth (status : Option Status) (devices : Option (List Device))
    (pools : Option (List Pool)) : HealthReport :=
  let statusOk := statusTruthy status
  let data := match status with
    | some s => s.data
    | none => ⟨none, none, none, none, none, none, none⟩
  { apiResponsive := statusOk
    miningActive := statusOk && (data.miningState == some "Running")
    hashrateOk := statusOk && decide (data.totalHashrate.getD 0 > (30 : ℚ))
    devicesHealthy := devicesCheck devices
    temperatureOk := devicesCheck devices
    poolsConnected := poolsCheck pools }

/-- The body of the per-device loop in `check_alerts` (lines 172-199):
a critical high-temperature alert when the temperature is truthy and
`> 85.0`, a warning low-hashrate alert when hashrate (default 0) `< 15.0`,
a critical not-mining alert when `status != 'Mining'`. -/
def deviceAlerts (now : ℤ) (d : Device) : List Alert :=
  (if optTruthy d.temperature && decide (d.temperature.getD 0 > 85) then
    [⟨.critical, .deviceHighTemp d.deviceId (d.temperature.getD 0), now⟩]
  else []) ++
  (if decide (d.hashrate.getD 0 < 15) then
    [⟨.warning, .deviceLowHashrate d.deviceId (d.hashrate.getD 0), now⟩]
  else []) ++
  (if d.status != some "Mining" then
    [⟨.critical, .deviceNotMining d.deviceId d.status, now⟩]
  else [])

/-- Embeds `CGMinerMonitor.check_alerts` (lines 130-211).  `now` is the cycle's
`datetime.now()` (every alert dict of one call stamps the capture time).
`not status or not status.get('success')` returns the single critical
API alert immediately; otherwise the status, device and pool checks run
in order and their alerts are concatenated. -/
def checkAlerts (status : Option Status) (devices : List Device)
    (pools : List Pool) (now : ℤ) : List Alert :=
  if !statusTruthy status then
    [⟨.critical, .apiNotResponding, now⟩]
  else
    let data := match status with
      | some s => s.data
      | none => ⟨none, none, none, none, none, none, none⟩
    (if data.miningState != some "Running" then
      [⟨.critical, .miningNotActive data.miningState, now⟩]
    else []) ++
    (if decide (data.totalHashrate.getD 0 < 30) then
      [⟨.warning, .lowTotalHashrate (data.totalHashrate.getD 0), now⟩]
    else []) ++
    (if decide (data.hardwareErrors.getD 0 > 10) then
      [⟨.warning, .highHardwareErrors (data.hardwareErrors.getD 0), now⟩]
    else []) ++
    (if devices.isEmpty then []
    else devices.flatMap (deviceAlerts now)) ++
    (if pools.isEmpty then []
    else if (pools.filter (fun p => p.status == some "Connected")).isEmpty then
      [⟨.critical, .noPoolsConnected, now⟩]
    else [])

/-- A metric dict as built by `collect_performance_metrics` (lines 255-267):
scalar fields with `.get(_, 0)` defaults, plus the two per-device arrays that
are only added when the device list is truthy. -/
structure MetricSample where
  timestamp : ℤ
  totalHashrate : ℚ
  acceptedShares : ℤ
  rejectedShares : ℤ
  hardwareErrors : ℤ
  activeDevices : ℤ
  uptime : ℤ
  deviceTemperatures : Option (List ℚ)
  deviceHashrates : Option (List ℚ)
  deriving DecidableEq, Repr

/-- The metric construction of `collect_performance_metrics` (lines 255-267)
for a truthy status payload `s`.  `tSample` is the `datetime.now()` of line
256, the new sample's own timestamp.  When the device list is truthy
(present and non-empty), `device_temperatures` keeps, in order, the
temperature of each device whose temperature is truthy, and likewise for
`device_hashrates` (lines 265-267). -/
def buildMetric (s : Status) (devices : Option (List Device)) (tSample : ℤ) :
    MetricSample :=
  let base : MetricSample :=
    { timestamp := tSample
      totalHashrate := s.data.totalHashrate.getD 0
      acceptedShares := s.data.acceptedShares.getD 0
      rejectedShares := s.data.rejectedShares.getD 0
      hardwareErrors := s.data.hardwareErrors.getD 0
      activeDevices := s.data.activeDevices.getD 0
      uptime := s.data.uptime.getD 0
      deviceTemperatures := none
      deviceHashrates := none }
  match devices with
  | none => base
  | some l =>
    if l.isEmpty then base
    else
      { base with
        deviceTemperatures := some (l.filterMap fun d =>
          if optTruthy d.temperature then some (d.temperature.getD 0) else none)
        deviceHashrates := some (l.filterMap fun d =>
          if optTruthy d.hashrate then some (d.hashrate.getD 0) else none) }

/-- Embeds `CGMinerMonitor.collect_performance_metrics` (lines 247-276), with the
two fetches and the two `datetime.now()` calls made explicit inputs:
`tSample` is the `now()` of line 256 (the new sample's timestamp) and
`tCutoff` the `now()` of line 272 (`cutoff_time = now - 24h`).  If the
status payload is falsy or its `success` flag false, nothing happens;
otherwise the new metric is appended and the list is re-filtered to the
samples with `timestamp > cutoff_time` (strict, line 275). -/
def collectPerformanceMetrics (status : Option Status)
    (devices : Option (List Device)) (tSample tCutoff : ℤ)
    (history : List MetricSample) : List MetricSample :=
  match status with
  | none => history
  | some s =>
    if !s.success then history
    else
      let metrics := buildMetric s devices tSample
      (history ++ [metrics]).filter fun m =>
        decide (m.timestamp > tCutoff - 86400)

/-- Modelled from the spec (§4.4 PerformanceHistory): `append` inserts the
new sample then evicts every retained sample older than `now - 24h`, with
eviction anchored to the appended sample's own timestamp.  Stated only for
comparison with `collectPerformanceMetrics` (refinement of C3). -/
def appendSpec (sample : MetricSample) (history : List MetricSample) :
    List MetricSample :=
  (history ++ [sample]).filter fun m =>
    decide (m.timestamp > sample.timestamp - 86400)

/-- The stages of one iteration of the `while True` body of
`monitor_continuous` (lines 326-365), in textual order: the three fetches
(lines 329-331), alert detection plus alert logging and emailing (lines
334-343), metric collection (line 346), the status log line (lines
349-356), and the inter-cycle `time.sleep` (line 358). -/
inductive Stage where
  | fetch
  | alertPhase
  | collect
  | statusLog
  | sleep
  deriving DecidableEq, Repr

/-- Textual position of a stage inside the loop body. -/
def Stage.idx : Stage → Nat
  | .fetch => 0
  | .alertPhase => 1
  | .collect => 2
  | .statusLog => 3
  | .sleep => 4

/-- What interrupts an iteration of the loop body, if anything: nothing, an
exception propagating to the `try` of line 327 from the given stage, or a
`KeyboardInterrupt` delivered during the given stage. -/
inductive CycleEvent where
  | ok
  | raised (s : Stage)
  | interrupted (s : Stage)
  deriving DecidableEq, Repr

/-- The environment of one loop iteration: the results the three fetches of
lines 329-331 would deliver, the results the refetches inside
`collect_performance_metrics` (lines 249-250) would deliver, the
`datetime.now()` values of the iteration, and the interrupting event. -/
structure CycleInput where
  status : Option Status
  devices : Option (List Device)
  pools : Option (List Pool)
  statusM : Option Status
  devicesM : Option (List Device)
  tAlert : ℤ
  tSample : ℤ
  tCutoff : ℤ
  event : CycleEvent
  deriving DecidableEq, Repr

/-- Observable outcome of one loop iteration: the performance history after
the iteration, the alerts the iteration detected and acted on, whether the
iteration slept for the configured interval, and whether the loop goes on
to another iteration. -/
structure CycleResult where
  history : List MetricSample
  alerts : List Alert
  slept : Bool
  continues : Bool
  deriving DecidableEq, Repr

/-- One iteration of the `while True` body of `monitor_continuous` (lines
326-365).  A stage runs iff no exception or interrupt surfaced at an
earlier or equal stage.  `check_alerts` is invoked with `devices or []` and
`pools or []` (line 334).  An exception reaching the `try` is caught by the
`except Exception` handler (lines 363-365), which logs the error, sleeps
for the interval and lets the loop continue; a `KeyboardInterrupt` is
caught by its own handler (lines 360-362), which breaks out of the loop
without sleeping. -/
def runCycle (inp : CycleInput) (history : List MetricSample) : CycleResult :=
  let cut : Option Nat := match inp.event with
    | .ok => none
    | .raised s => some s.idx
    | .interrupted s => some s.idx
  let runs : Nat → Bool := fun i => match cut with
    | none => true
    | some j => decide (i < j)
  let alerts :=
    if runs Stage.alertPhase.idx then
      checkAlerts inp.status (inp.devices.getD []) (inp.pools.getD []) inp.tAlert
    else []
  let history' :=
    if runs Stage.collect.idx then
      collectPerformanceMetrics inp.statusM inp.devicesM inp.tSample inp.tCutoff
        history
    else history
  match inp.event with
  | .ok => ⟨history', alerts, true, true⟩
  | .raised _ => ⟨history', alerts, true, true⟩
  | .interrupted _ => ⟨history', alerts, false, false⟩

/-- The time-independent content of an alert: its severity and message. -/
def alertContent (a : Alert) : Severity × Msg := (a.type, a.message)

/-- Recogniser for the critical `'No pools connected'` alert. -/
def isNoPoolsAlert (a : Alert) : Bool :=
  a.type == Severity.critical && a.message == Msg.noPoolsConnected

/-- Recogniser for a per-device high-temperature alert. -/
def isHighTempAlert (a : Alert) : Bool :=
  match a.message with
  | .deviceHighTemp _ _ => true
  | _ => false

/-- Recogniser for a per-device low-hashrate alert. -/
def isLowHashAlert (a : Alert) : Bool :=
  match a.message with
  | .deviceLowHashrate _ _ => true
  | _ => false

/-- Recogniser for the low-total-hashrate alert. -/
def isLowTotalAlert (a : Alert) : Bool :=
  match a.message with
  | .lowTotalHashrate _ => true
  | _ => false

end Monitor

namespace Monitor

/-- The new metric's timestamp is the `datetime.now()` of line 256, whatever
the device list contributes. -/
theorem buildMetric_timestamp (s : Status) (devices : Option (List Device))
    (t : ℤ) : (buildMetric s devices t).timestamp = t := by
  unfold buildMetric
  cases devices with
  | none => rfl
  | some l =>
    by_cases h : l.isEmpty <;> simp [h]

/-- The alert content a device contributes does not depend on the capture
time. -/
theorem deviceAlerts_map_content (t₁ t₂ : ℤ) (d : Device) :
    (deviceAlerts t₁ d).map alertContent = (deviceAlerts t₂ d).map alertContent := by
  unfold deviceAlerts
  by_cases h1 : (optTruthy d.temperature && decide (d.temperature.getD 0 > (85 : ℚ))) = true <;>
    by_cases h2 : decide (d.hashrate.getD 0 < (15 : ℚ)) = true <;>
    by_cases h3 : (d.status != some "Mining") = true <;>
    simp [h1, h2, h3, alertContent]

/-- The alert content of a whole device list does not depend on the capture
time. -/
theorem flatMap_deviceAlerts_map_content (t₁ t₂ : ℤ) (l : List Device) :
    (l.flatMap (deviceAlerts t₁)).map alertContent
      = (l.flatMap (deviceAlerts t₂)).map alertContent := by
  induction l with
  | nil => rfl
  | cons d l ih =>
    simp only [List.flatMap_cons, List.map_append, ih,
      deviceAlerts_map_content t₁ t₂ d]

/-- Zero count over a `flatMap` whose every block the predicate misses. -/
theorem countP_flatMap_zero {α : Type} (f : α → List Alert) (p : Alert → Bool)
    (h : ∀ a, (f a).countP p = 0) (l : List α) :
    (l.flatMap f).countP p = 0 := by
  induction l with
  | nil => rfl
  | cons x xs ih => simp [List.flatMap_cons, List.countP_append, h, ih]

/-- Zero count of a conditional singleton the predicate rejects. -/
theorem countP_ite_singleton (p : Alert → Bool) (c : Prop) [Decidable c]
    (a : Alert) (h : p a = false) :
    (if c then [a] else []).countP p = 0 := by
  split
  · simp [List.countP_cons, h]
  · rfl

/-- A predicate that rejects all three per-device alert shapes counts zero
alerts from a device. -/
theorem deviceAlerts_countP_zero (p : Alert → Bool) (t : ℤ) (d : Device)
    (h1 : ∀ v, p ⟨.critical, .deviceHighTemp d.deviceId v, t⟩ = false)
    (h2 : ∀ v, p ⟨.warning, .deviceLowHashrate d.deviceId v, t⟩ = false)
    (h3 : p ⟨.critical, .deviceNotMining d.deviceId d.status, t⟩ = false) :
    (deviceAlerts t d).countP p = 0 := by
  simp only [deviceAlerts, List.countP_append]
  rw [countP_ite_singleton p _ _ (h1 _), countP_ite_singleton p _ _ (h2 _),
    countP_ite_singleton p _ _ h3]

/-- No per-device alert is the `'No pools connected'` alert. -/
theorem deviceAlerts_countP_noPools (t : ℤ) (d : Device) :
    (deviceAlerts t d).countP isNoPoolsAlert = 0 :=
  deviceAlerts_countP_zero _ _ _ (fun _ => rfl) (fun _ => rfl) rfl

/-- No per-device alert is the low-total-hashrate alert. -/
theorem deviceAlerts_countP_lowTotal (t : ℤ) (d : Device) :
    (deviceAlerts t d).countP isLowTotalAlert = 0 :=
  deviceAlerts_countP_zero _ _ _ (fun _ => rfl) (fun _ => rfl) rfl

end Monitor

namespace Monitor

/-- C2: whenever the status is missing or its application-level `success`
flag is false, `check_alerts` returns exactly one alert — the critical
`'API not responding'` alert stamped with the cycle's capture time — and
performs no device, pool or other checks, whatever device and pool lists
are passed in. -/
theorem checkAlerts_apiDown_single_alert (status : Option Status)
    (devices : List Device) (pools : List Pool) (now : ℤ)
    (h : statusTruthy status = false) :
    checkAlerts status devices pools now
      = [⟨Severity.critical, Msg.apiNotResponding, now⟩] := by
  simp [checkAlerts, h]

/-- Witness: the API-down theorem at a present status with `success=false`
and non-trivial device and pool lists. -/
theorem checkAlerts_apiDown_single_alert_witness :
    statusTruthy
        (some ⟨false, ⟨some "Running", some 99, none, none, none, none, none⟩⟩)
      = false ∧
    checkAlerts
        (some ⟨false, ⟨some "Running", some 99, none, none, none, none, none⟩⟩)
        [⟨some "d0", some "Idle", some 90, some 1⟩] [⟨some "Disconnected"⟩] 7
      = [⟨Severity.critical, Msg.apiNotResponding, 7⟩] :=
  ⟨by decide, checkAlerts_apiDown_single_alert _ _ _ 7 (by decide)⟩

/-- C6 counterexample: two evaluations of `check_alerts` on identical
`(status, devices, pools)` inputs do not yield identical outputs — each
alert dict embeds the `datetime.now().isoformat()` of its own evaluation
(line 138), so evaluations at capture times 0 and 1 differ. -/
theorem checkAlerts_not_pure_in_three_inputs :
    checkAlerts none [] [] 0 ≠ checkAlerts none [] [] 1 := by decide

/-- C6 amended: `check_alerts` is a deterministic function of its inputs
together with the capture time: on identical `(status, devices, pools)`
inputs the alert count, severities and messages are identical — only the
embedded capture-time timestamps vary between evaluations, and no other
state affects the result. -/
theorem checkAlerts_content_deterministic (status : Option Status)
    (devices : List Device) (pools : List Pool) (t₁ t₂ : ℤ) :
    (checkAlerts status devices pools t₁).map alertContent
      = (checkAlerts status devices pools t₂).map alertContent := by
  unfold checkAlerts
  cases hst : statusTruthy status with
  | false => simp [alertContent]
  | true =>
    simp only [hst, Bool.not_true, Bool.false_eq_true, if_false, List.map_append]
    by_cases h1 : ((match status with
        | some s => s.data
        | none => (⟨none, none, none, none, none, none, none⟩ : StatusData)).miningState
          != some "Running") = true <;>
      by_cases h2 : decide ((match status with
        | some s => s.data
        | none => (⟨none, none, none, none, none, none, none⟩ : StatusData)).totalHashrate.getD 0
          < (30 : ℚ)) = true <;>
      by_cases h3 : decide ((match status with
        | some s => s.data
        | none => (⟨none, none, none, none, none, none, none⟩ : StatusData)).hardwareErrors.getD 0
          > (10 : ℤ)) = true <;>
      by_cases h4 : devices.isEmpty = true <;>
      by_cases h5 : pools.isEmpty = true <;>
      by_cases h6 : (pools.filter (fun p => p.status == some "Connected")).isEmpty = true <;>
      simp [h1, h2, h3, h4, h5, h6, alertContent,
        flatMap_deviceAlerts_map_content t₁ t₂]

end Monitor

namespace Monitor

/-- C8 counterexample: a present status whose `total_hashrate` (40) exceeds
30.0 but whose application-level `success` flag is false yields
`hashrate_ok = false` — `check_health` only evaluates the hashrate under
`status and status.get('success')` (line 93), so presence alone does not
suffice. -/
theorem hashrateOk_needs_success :
    (checkHealth (some ⟨false, ⟨none, some 40, none, none, none, none, none⟩⟩)
        none none).hashrateOk = false ∧
    (some (⟨false, ⟨none, some 40, none, none, none, none, none⟩⟩ : Status)).isSome
        = true ∧
    ((⟨false, ⟨none, some 40, none, none, none, none, none⟩⟩ :
        Status)).data.totalHashrate.getD 0 > (30 : ℚ) := by
  decide

/-- C8 amended: `hashrate_ok` is true iff the status is present with its
application-level success flag true and its `total_hashrate` (default 0)
exceeds 30.0 GH/s. -/
theorem hashrateOk_iff (status : Option Status) (devices : Option (List Device))
    (pools : Option (List Pool)) :
    (checkHealth status devices pools).hashrateOk = true ↔
      ∃ s, status = some s ∧ s.success = true ∧
        s.data.totalHashrate.getD 0 > (30 : ℚ) := by
  cases status with
  | none => simp [checkHealth, statusTruthy]
  | some s => simp [checkHealth, statusTruthy]

/-- C4: `devices_healthy` and `temperature_ok` are always equal — both are
assigned from the single device-block condition of `check_health` (lines
117-119) — and both are true exactly when the device list is present,
non-empty, and the fraction of devices satisfying
(`status == 'Mining'` and `temperature < 85.0` and `hashrate > 15.0`) is at
least 0.8. -/
theorem devicesHealthy_eq_temperatureOk (status : Option Status)
    (devices : Option (List Device)) (pools : Option (List Pool)) :
    ((checkHealth status devices pools).devicesHealthy
        = (checkHealth status devices pools).temperatureOk) ∧
    ((checkHealth status devices pools).devicesHealthy = true ↔
      ∃ l, devices = some l ∧ l ≠ [] ∧
        ((l.countP healthyDevice : ℚ) / (l.length : ℚ) ≥ 8 / 10)) := by
  refine ⟨rfl, ?_⟩
  show devicesCheck devices = true ↔ _
  cases devices with
  | none => simp [devicesCheck]
  | some l =>
    by_cases hl : l.isEmpty
    · simp [devicesCheck, hl, List.isEmpty_iff.mp hl]
    · have hne : l ≠ [] := fun h => hl (by simp [h])
      have hlen : 0 < l.length := List.length_pos.mpr hne
      simp only [devicesCheck, hl, Bool.false_eq_true, if_false, decide_eq_true_eq,
        Option.some.injEq]
      rw [Rat.divInt_eq_div, Rat.divInt_eq_div]
      push_cast
      constructor
      · rintro ⟨-, hfrac⟩
        exact ⟨l, rfl, hne, by linarith⟩
      · rintro ⟨l', hl', hne', hfrac⟩
        cases hl'
        exact ⟨hlen, by linarith⟩

end Monitor

namespace Monitor

/-- C7: the pool check of `check_alerts` is asymmetric — whenever the pool
check is reached (status truthy) with a non-empty pool list in which no
pool has `status == 'Connected'`, exactly one critical
`'No pools connected'` alert appears in the output; with the empty pool
list, no such alert is ever emitted (for any status). -/
theorem noPools_alert_asymmetry (status : Option Status) (devices : List Device)
    (pools : List Pool) (now : ℤ) :
    (statusTruthy status = true → pools ≠ [] →
      (∀ p ∈ pools, p.status ≠ some "Connected") →
      (checkAlerts status devices pools now).countP isNoPoolsAlert = 1) ∧
    ((checkAlerts status devices [] now).countP isNoPoolsAlert = 0) := by
  constructor
  · intro hs hne hconn
    cases status with
    | none => simp [statusTruthy] at hs
    | some s =>
      simp only [statusTruthy] at hs
      have hpe : pools.isEmpty = false := by
        cases pools with
        | nil => exact absurd rfl hne
        | cons p ps => rfl
      have hfe : (pools.filter (fun p => p.status == some "Connected")) = [] := by
        rw [List.filter_eq_nil_iff]
        intro p hp
        simpa using hconn p hp
      unfold checkAlerts
      rw [if_neg (by simp [statusTruthy, hs])]
      simp only [List.countP_append]
      rw [countP_ite_singleton _ _ _ rfl, countP_ite_singleton _ _ _ rfl,
        countP_ite_singleton _ _ _ rfl]
      have hdev : (if devices.isEmpty = true then ([] : List Alert)
          else devices.flatMap (deviceAlerts now)).countP isNoPoolsAlert = 0 := by
        split
        · rfl
        · exact countP_flatMap_zero _ _ (deviceAlerts_countP_noPools now) devices
      rw [hdev, hpe, hfe]
      simp [List.countP_cons, isNoPoolsAlert]
  · cases hst : statusTruthy status with
    | false =>
      rw [checkAlerts_apiDown_single_alert status devices [] now hst]
      simp [List.countP_cons, isNoPoolsAlert]
    | true =>
      cases status with
      | none => simp [statusTruthy] at hst
      | some s =>
        simp only [statusTruthy] at hst
        unfold checkAlerts
        rw [if_neg (by simp [statusTruthy, hst])]
        simp only [List.countP_append]
        rw [countP_ite_singleton _ _ _ rfl, countP_ite_singleton _ _ _ rfl,
          countP_ite_singleton _ _ _ rfl]
        have hdev : (if devices.isEmpty = true then ([] : List Alert)
            else devices.flatMap (deviceAlerts now)).countP isNoPoolsAlert = 0 := by
          split
          · rfl
          · exact countP_flatMap_zero _ _ (deviceAlerts_countP_noPools now) devices
        rw [hdev]
        rfl

/-- Witness: one disconnected pool under a truthy status yields exactly one
`'No pools connected'` alert; the empty pool list yields none. -/
theorem noPools_alert_asymmetry_witness :
    (checkAlerts (some ⟨true, ⟨some "Running", some 45, none, none, none, none, none⟩⟩)
        [] [⟨some "Disconnected"⟩] 3).countP isNoPoolsAlert = 1 ∧
    (checkAlerts (some ⟨true, ⟨some "Running", some 45, none, none, none, none, none⟩⟩)
        [] [] 3).countP isNoPoolsAlert = 0 :=
  ⟨(noPools_alert_asymmetry
      (some ⟨true, ⟨some "Running", some 45, none, none, none, none, none⟩⟩)
      [] [⟨some "Disconnected"⟩] 3).1 (by decide) (by decide) (by decide),
   (noPools_alert_asymmetry
      (some ⟨true, ⟨some "Running", some 45, none, none, none, none, none⟩⟩)
      [] [⟨some "Disconnected"⟩] 3).2⟩

end Monitor

namespace Monitor

/-- A truthy optional value is present and equals its defaulted read. -/
theorem optTruthy_eq_some {o : Option ℚ} (h : optTruthy o = true) :
    o = some (o.getD 0) := by
  cases o with
  | none => simp [optTruthy] at h
  | some v => rfl

/-- Length of a guarded `filterMap` is the count of elements passing the
guard. -/
theorem length_filterMap_ite {α β : Type} (p : α → Bool) (g : α → β)
    (l : List α) :
    (l.filterMap fun a => if p a then some (g a) else none).length
      = l.countP p := by
  induction l with
  | nil => rfl
  | cons x xs ih =>
    by_cases h : p x = true <;>
      simp [List.filterMap_cons, h, List.countP_cons, ih]

/-- The two per-device arrays a non-empty device list contributes to the
metric dict. -/
theorem buildMetric_arrays (s : Status) (l : List Device) (t : ℤ)
    (hl : l.isEmpty = false) :
    (buildMetric s (some l) t).deviceTemperatures
      = some (l.filterMap fun d =>
          if optTruthy d.temperature then some (d.temperature.getD 0) else none) ∧
    (buildMetric s (some l) t).deviceHashrates
      = some (l.filterMap fun d =>
          if optTruthy d.hashrate then some (d.hashrate.getD 0) else none) := by
  unfold buildMetric
  simp [hl]

/-- Unfolding of `collect_performance_metrics` at a present status. -/
theorem collect_some (s : Status) (devices : Option (List Device))
    (tSample tCutoff : ℤ) (history : List MetricSample) :
    collectPerformanceMetrics (some s) devices tSample tCutoff history
      = if s.success
        then (history ++ [buildMetric s devices tSample]).filter
          (fun m => decide (m.timestamp > tCutoff - 86400))
        else history := by
  cases h : s.success <;> simp [collectPerformanceMetrics, h]

/-- C1: after every append performed by `collect_performance_metrics` (the
status is truthy, so a new sample is appended), every sample retained in
`performance_history` has a timestamp within 24 hours of the newly appended
sample's own timestamp — given that the cutoff clock read of line 272 is
not before the sample-stamp clock read of line 256, as successive
`datetime.now()` calls are. -/
theorem retention_within_24h_of_newest (s : Status)
    (devices : Option (List Device)) (tSample tCutoff : ℤ)
    (history : List MetricSample) (hsucc : s.success = true)
    (hclock : tSample ≤ tCutoff) :
    ∀ m ∈ collectPerformanceMetrics (some s) devices tSample tCutoff history,
      (buildMetric s devices tSample).timestamp - m.timestamp ≤ 86400 := by
  intro m hm
  rw [buildMetric_timestamp]
  rw [collect_some, hsucc, if_pos rfl] at hm
  rw [List.mem_filter] at hm
  have hgt := of_decide_eq_true hm.2
  omega

/-- Witness: the retention bound after one append over a stale history, at
coinciding clock reads. -/
theorem retention_within_24h_of_newest_witness :
    (⟨true, ⟨none, none, none, none, none, none, none⟩⟩ : Status).success = true ∧
    (1000 : ℤ) ≤ 1000 ∧
    ∀ m ∈ collectPerformanceMetrics
        (some ⟨true, ⟨none, none, none, none, none, none, none⟩⟩) none 1000 1000
        [⟨-100000, 0, 0, 0, 0, 0, 0, none, none⟩],
      (buildMetric ⟨true, ⟨none, none, none, none, none, none, none⟩⟩
          none 1000).timestamp - m.timestamp ≤ 86400 :=
  ⟨rfl, by decide,
    retention_within_24h_of_newest _ none 1000 1000 _ rfl (by decide)⟩

/-- C3 counterexample: the eviction cutoff of
`collect_performance_metrics` is the fresh `datetime.now()` of line 272,
not the new sample's own timestamp from line 256.  With the sample stamped
1000000 and the cutoff clock read 20 later, a prior sample that is only
86390 seconds (< 24h) older than the new sample is nevertheless evicted, so
the result differs from the spec's sample-anchored append. -/
theorem eviction_not_anchored_to_sample :
    collectPerformanceMetrics
        (some ⟨true, ⟨none, none, none, none, none, none, none⟩⟩) none
        1000000 1000020 [⟨913610, 0, 0, 0, 0, 0, 0, none, none⟩]
      ≠ appendSpec
        (buildMetric ⟨true, ⟨none, none, none, none, none, none, none⟩⟩
          none 1000000)
        [⟨913610, 0, 0, 0, 0, 0, 0, none, none⟩] := by
  decide

/-- C3 amended: the eviction cutoff equals the line-272 `datetime.now()`
read minus 24 hours.  Whenever that read coincides with the line-256 read
that stamps the sample, the operation is exactly the sample-anchored append
of the spec, a deterministic function of the new sample and the prior
history. -/
theorem collect_eq_appendSpec_when_clocks_agree (s : Status)
    (devices : Option (List Device)) (t : ℤ) (history : List MetricSample)
    (hsucc : s.success = true) :
    collectPerformanceMetrics (some s) devices t t history
      = appendSpec (buildMetric s devices t) history := by
  rw [collect_some, hsucc, if_pos rfl]
  unfold appendSpec
  rw [buildMetric_timestamp]

/-- Witness: the clocks-agree equation at a concrete status, time and
history. -/
theorem collect_eq_appendSpec_when_clocks_agree_witness :
    (⟨true, ⟨none, some 45, none, none, none, none, none⟩⟩ : Status).success
        = true ∧
    collectPerformanceMetrics
        (some ⟨true, ⟨none, some 45, none, none, none, none, none⟩⟩) none 500 500
        [⟨400, 1, 0, 0, 0, 0, 0, none, none⟩]
      = appendSpec
        (buildMetric ⟨true, ⟨none, some 45, none, none, none, none, none⟩⟩
          none 500)
        [⟨400, 1, 0, 0, 0, 0, 0, none, none⟩] :=
  ⟨rfl, collect_eq_appendSpec_when_clocks_agree _ none 500 _ rfl⟩

end Monitor

namespace Monitor

/-- C9 counterexample: a device whose `temperature` key is present with
value 0.0 is omitted from `device_temperatures` — the comprehension guard
`if d.get('temperature')` (line 266) tests Python truthiness, not presence,
and `0.0` is falsy — so an entry is omitted for a device whose value is
present. -/
theorem present_zero_temperature_omitted :
    ((⟨some "d0", some "Mining", some 0, some 20⟩ : Device)).temperature.isSome
        = true ∧
    (collectPerformanceMetrics
        (some ⟨true, ⟨none, none, none, none, none, none, none⟩⟩)
        (some [⟨some "d0", some "Mining", some 0, some 20⟩]) 0 0 []).map
        (fun m => m.deviceTemperatures)
      = [some []] := by
  decide

/-- C9 amended: for a non-empty device list, the built sample's
`device_temperatures` and `device_hashrates` contain exactly the values of
the devices whose temperature (resp. hashrate) is present and truthy
(non-zero): the array length equals the count of such devices, every such
device's value appears, and every array entry is the present value of some
device in the list. -/
theorem metric_arrays_exactly_truthy_values (s : Status) (l : List Device)
    (t : ℤ) (hne : l ≠ []) :
    ∃ ts hs,
      (buildMetric s (some l) t).deviceTemperatures = some ts ∧
      (buildMetric s (some l) t).deviceHashrates = some hs ∧
      ts.length = l.countP (fun d => optTruthy d.temperature) ∧
      hs.length = l.countP (fun d => optTruthy d.hashrate) ∧
      (∀ d ∈ l, optTruthy d.temperature = true → d.temperature.getD 0 ∈ ts) ∧
      (∀ d ∈ l, optTruthy d.hashrate = true → d.hashrate.getD 0 ∈ hs) ∧
      (∀ v ∈ ts, ∃ d ∈ l, d.temperature = some v) ∧
      (∀ v ∈ hs, ∃ d ∈ l, d.hashrate = some v) := by
  have hl : l.isEmpty = false := by
    cases l with
    | nil => exact absurd rfl hne
    | cons d ds => rfl
  obtain ⟨hT, hH⟩ := buildMetric_arrays s l t hl
  refine ⟨_, _, hT, hH, length_filterMap_ite _ _ _, length_filterMap_ite _ _ _,
    ?_, ?_, ?_, ?_⟩
  · intro d hd htr
    exact List.mem_filterMap.mpr ⟨d, hd, by rw [if_pos htr]⟩
  · intro d hd htr
    exact List.mem_filterMap.mpr ⟨d, hd, by rw [if_pos htr]⟩
  · intro v hv
    obtain ⟨d, hd, heq⟩ := List.mem_filterMap.mp hv
    by_cases htr : optTruthy d.temperature = true
    · rw [if_pos htr] at heq
      obtain rfl := Option.some.inj heq
      exact ⟨d, hd, optTruthy_eq_some htr⟩
    · rw [if_neg htr] at heq
      exact absurd heq (by simp)
  · intro v hv
    obtain ⟨d, hd, heq⟩ := List.mem_filterMap.mp hv
    by_cases htr : optTruthy d.hashrate = true
    · rw [if_pos htr] at heq
      obtain rfl := Option.some.inj heq
      exact ⟨d, hd, optTruthy_eq_some htr⟩
    · rw [if_neg htr] at heq
      exact absurd heq (by simp)

/-- Witness: the exact-content property of the per-device arrays at a
concrete one-device list. -/
theorem metric_arrays_exactly_truthy_values_witness :
    (([⟨some "d0", some "Mining", some 70, some 20⟩] : List Device) ≠ []) ∧
    ∃ ts hs,
      (buildMetric ⟨true, ⟨none, none, none, none, none, none, none⟩⟩
          (some [⟨some "d0", some "Mining", some 70, some 20⟩]) 0).deviceTemperatures
        = some ts ∧
      (buildMetric ⟨true, ⟨none, none, none, none, none, none, none⟩⟩
          (some [⟨some "d0", some "Mining", some 70, some 20⟩]) 0).deviceHashrates
        = some hs ∧
      ts.length = ([⟨some "d0", some "Mining", some 70, some 20⟩] : List Device).countP
          (fun d => optTruthy d.temperature) ∧
      hs.length = ([⟨some "d0", some "Mining", some 70, some 20⟩] : List Device).countP
          (fun d => optTruthy d.hashrate) ∧
      (∀ d ∈ ([⟨some "d0", some "Mining", some 70, some 20⟩] : List Device),
        optTruthy d.temperature = true → d.temperature.getD 0 ∈ ts) ∧
      (∀ d ∈ ([⟨some "d0", some "Mining", some 70, some 20⟩] : List Device),
        optTruthy d.hashrate = true → d.hashrate.getD 0 ∈ hs) ∧
      (∀ v ∈ ts, ∃ d ∈ ([⟨some "d0", some "Mining", some 70, some 20⟩] : List Device),
        d.temperature = some v) ∧
      (∀ v ∈ hs, ∃ d ∈ ([⟨some "d0", some "Mining", some 70, some 20⟩] : List Device),
        d.hashrate = some v) :=
  ⟨by decide,
    metric_arrays_exactly_truthy_values
      ⟨true, ⟨none, none, none, none, none, none, none⟩⟩
      [⟨some "d0", some "Mining", some 70, some 20⟩] 0 (by decide)⟩

end Monitor

namespace Monitor

/-- C5 counterexample: an error raised in the status-log step (lines
349-356) — after alert handling and metric collection have already run —
is caught at the loop level, but the cycle has by then already contributed
alerts and an appended sample, contradicting the claim that a cycle in
which an error is raised anywhere contributes no alerts and no appended
sample. -/
theorem failed_cycle_still_contributes :
    (runCycle
        ⟨some ⟨true, ⟨some "Stopped", some 45, none, none, none, none, none⟩⟩,
          none, none,
          some ⟨true, ⟨some "Stopped", some 45, none, none, none, none, none⟩⟩,
          none, 0, 0, 0, CycleEvent.raised Stage.statusLog⟩ []).alerts ≠ [] ∧
    (runCycle
        ⟨some ⟨true, ⟨some "Stopped", some 45, none, none, none, none, none⟩⟩,
          none, none,
          some ⟨true, ⟨some "Stopped", some 45, none, none, none, none, none⟩⟩,
          none, 0, 0, 0, CycleEvent.raised Stage.statusLog⟩ []).history ≠ [] := by
  decide

/-- C5 amended: an error raised anywhere in a cycle is caught at the loop
level; the loop still sleeps for the configured interval and continues —
no raised error terminates it, only an external interrupt does.  Steps
after the raise point are skipped, so a cycle failing at or before alert
detection contributes no alerts, and one failing at or before metric
collection appends no sample; effects completed before the raise persist. -/
theorem raised_cycle_caught_and_loop_continues (inp : CycleInput)
    (history : List MetricSample) :
    (∀ st, inp.event = CycleEvent.raised st →
      (runCycle inp history).slept = true ∧
      (runCycle inp history).continues = true ∧
      (st.idx ≤ Stage.alertPhase.idx → (runCycle inp history).alerts = []) ∧
      (st.idx ≤ Stage.collect.idx → (runCycle inp history).history = history)) ∧
    ((runCycle inp history).continues = false ↔
      ∃ st, inp.event = CycleEvent.interrupted st) := by
  constructor
  · intro st hev
    simp only [runCycle, hev]
    refine ⟨trivial, trivial, ?_, ?_⟩
    · intro hle
      rw [if_neg]
      simp only [decide_eq_true_eq]
      omega
    · intro hle
      rw [if_neg]
      simp only [decide_eq_true_eq]
      omega
  · cases hev : inp.event with
    | ok => simp [runCycle, hev]
    | raised st => simp [runCycle, hev]
    | interrupted st =>
      simp only [runCycle, hev]
      exact ⟨fun _ => ⟨st, rfl⟩, fun _ => trivial⟩

/-- Witness: a cycle whose fetches already raise sleeps, continues, and
contributes nothing. -/
theorem raised_cycle_caught_witness :
    (runCycle ⟨none, none, none, none, none, 0, 0, 0,
        CycleEvent.raised Stage.fetch⟩ []).slept = true ∧
    (runCycle ⟨none, none, none, none, none, 0, 0, 0,
        CycleEvent.raised Stage.fetch⟩ []).continues = true ∧
    (runCycle ⟨none, none, none, none, none, 0, 0, 0,
        CycleEvent.raised Stage.fetch⟩ []).alerts = [] ∧
    (runCycle ⟨none, none, none, none, none, 0, 0, 0,
        CycleEvent.raised Stage.fetch⟩ []).history = [] :=
  have h := (raised_cycle_caught_and_loop_continues
    ⟨none, none, none, none, none, 0, 0, 0, CycleEvent.raised Stage.fetch⟩
    []).1 Stage.fetch rfl
  ⟨h.1, h.2.1, h.2.2.1 (by decide), h.2.2.2 (by decide)⟩

end Monitor

namespace Monitor

/-- A predicate that rejects the `'No pools connected'` alert counts zero
alerts from the pool block of `check_alerts`. -/
theorem countP_pool_group_zero (p : Alert → Bool) (pools : List Pool) (now : ℤ)
    (h : p ⟨.critical, .noPoolsConnected, now⟩ = false) :
    (if pools.isEmpty = true then ([] : List Alert)
     else if (pools.filter fun q => q.status == some "Connected").isEmpty = true then
       [⟨Severity.critical, Msg.noPoolsConnected, now⟩]
     else []).countP p = 0 := by
  split
  · rfl
  · exact countP_ite_singleton _ _ _ h

/-- A predicate missed by every per-device alert counts zero alerts from
the device block of `check_alerts`. -/
theorem countP_device_group_zero (p : Alert → Bool) (devices : List Device)
    (now : ℤ) (h : ∀ d, (deviceAlerts now d).countP p = 0) :
    (if devices.isEmpty = true then ([] : List Alert)
     else devices.flatMap (deviceAlerts now)).countP p = 0 := by
  split
  · rfl
  · exact countP_flatMap_zero _ _ h devices

/-- C10: at each exact threshold value the alert comparison (strict in one
direction) and the health comparison (strict in the other) disagree: a
device temperature of exactly 85.0 raises no high-temperature alert yet
fails the healthy-device condition; a device hashrate of exactly 15.0
raises no low-hashrate alert yet fails the healthy-device condition; a
`total_hashrate` of exactly 30.0 raises no low-total-hashrate alert yet
yields `hashrate_ok = false`; and a concrete system at all three boundaries
reports unhealthy while `check_alerts` returns no alert at all. -/
theorem threshold_boundary_gap :
    (∀ (now : ℤ) (d : Device), d.temperature = some 85 →
      (deviceAlerts now d).countP isHighTempAlert = 0 ∧
        healthyDevice d = false) ∧
    (∀ (now : ℤ) (d : Device), d.hashrate = some 15 →
      (deviceAlerts now d).countP isLowHashAlert = 0 ∧
        healthyDevice d = false) ∧
    (∀ (now : ℤ) (s : Status) (devices : List Device) (pools : List Pool)
        (devs : Option (List Device)) (ps : Option (List Pool)),
      s.data.totalHashrate = some 30 →
      (checkAlerts (some s) devices pools now).countP isLowTotalAlert = 0 ∧
        (checkHealth (some s) devs ps).hashrateOk = false) ∧
    (checkAlerts
        (some ⟨true, ⟨some "Running", some 30, none, none, none, none, none⟩⟩)
        [⟨some "d0", some "Mining", some 85, some 15⟩] [⟨some "Connected"⟩] 0
      = [] ∧
     (checkHealth
        (some ⟨true, ⟨some "Running", some 30, none, none, none, none, none⟩⟩)
        (some [⟨some "d0", some "Mining", some 85, some 15⟩])
        (some [⟨some "Connected"⟩])).devicesHealthy = false ∧
     (checkHealth
        (some ⟨true, ⟨some "Running", some 30, none, none, none, none, none⟩⟩)
        (some [⟨some "d0", some "Mining", some 85, some 15⟩])
        (some [⟨some "Connected"⟩])).temperatureOk = false ∧
     (checkHealth
        (some ⟨true, ⟨some "Running", some 30, none, none, none, none, none⟩⟩)
        (some [⟨some "d0", some "Mining", some 85, some 15⟩])
        (some [⟨some "Connected"⟩])).hashrateOk = false) := by
  refine ⟨?_, ?_, ?_, by decide⟩
  · intro now d htemp
    constructor
    · unfold deviceAlerts
      rw [htemp]
      simp only [List.countP_append]
      rw [show (optTruthy (some (85 : ℚ)) &&
          decide ((some (85 : ℚ)).getD 0 > 85)) = false from by decide]
      simp only [Bool.false_eq_true, if_false, List.countP_nil]
      rw [countP_ite_singleton _ _ _ rfl, countP_ite_singleton _ _ _ rfl]
    · unfold healthyDevice
      rw [htemp]
      rw [show decide ((some (85 : ℚ)).getD 0 < 85) = false from by decide]
      simp
  · intro now d hhash
    constructor
    · unfold deviceAlerts
      rw [hhash]
      simp only [List.countP_append]
      rw [show decide ((some (15 : ℚ)).getD 0 < 15) = false from by decide]
      simp only [Bool.false_eq_true, if_false, List.countP_nil]
      rw [countP_ite_singleton _ _ _ rfl, countP_ite_singleton _ _ _ rfl]
    · unfold healthyDevice
      rw [hhash]
      rw [show decide ((some (15 : ℚ)).getD 0 > 15) = false from by decide]
      simp
  · intro now s devices pools devs ps htot
    constructor
    · cases hs : s.success with
      | false =>
        rw [checkAlerts_apiDown_single_alert _ _ _ _ (by simp [statusTruthy, hs])]
        rfl
      | true =>
        unfold checkAlerts
        rw [if_neg (by simp [statusTruthy, hs])]
        simp only [List.countP_append, htot, Option.getD_some]
        rw [show decide ((30 : ℚ) < 30) = false from by decide]
        simp only [Bool.false_eq_true, if_false, List.countP_nil]
        rw [countP_ite_singleton _ _ _ rfl, countP_ite_singleton _ _ _ rfl,
          countP_device_group_zero _ _ _ (deviceAlerts_countP_lowTotal now),
          countP_pool_group_zero _ _ _ rfl]
    · simp [checkHealth, statusTruthy, htot,
        show ¬((30 : ℚ) > 30) from by norm_num]

/-- Witness: the three boundary parts at concrete devices and a concrete
status. -/
theorem threshold_boundary_gap_witness :
    ((deviceAlerts 0 ⟨some "d0", some "Mining", some 85, some 20⟩).countP
        isHighTempAlert = 0 ∧
      healthyDevice ⟨some "d0", some "Mining", some 85, some 20⟩ = false) ∧
    ((deviceAlerts 0 ⟨some "d1", some "Mining", some 60, some 15⟩).countP
        isLowHashAlert = 0 ∧
      healthyDevice ⟨some "d1", some "Mining", some 60, some 15⟩ = false) ∧
    ((checkAlerts
        (some ⟨true, ⟨some "Running", some 30, none, none, none, none, none⟩⟩)
        [] [] 0).countP isLowTotalAlert = 0 ∧
      (checkHealth
        (some ⟨true, ⟨some "Running", some 30, none, none, none, none, none⟩⟩)
        none none).hashrateOk = false) :=
  ⟨threshold_boundary_gap.1 0 ⟨some "d0", some "Mining", some 85, some 20⟩ rfl,
   threshold_boundary_gap.2.1 0 ⟨some "d1", some "Mining", some 60, some 15⟩ rfl,
   threshold_boundary_gap.2.2.1 0
     ⟨true, ⟨some "Running", some 30, none, none, none, none, none⟩⟩
     [] [] none none rfl⟩

end Monitor
